import Mathlib

/-!
# WizardJam combat core — shallow embedding

A verification development for the WizardJam combat core: the aim resolver
(`UAC_AimComponent`), the fire controller (`UAC_CombatComponent`) and the
projectile entity (`ABaseProjectile`).  Engine vectors (`FVector`, float
components) are modelled with exact rational components; the one operation
rationals are not closed under, unit normalization (`FVector::GetSafeNormal`),
is modelled by keeping the direction-preserving unnormalized representative
for the non-degenerate branch (the engine value is that representative times
the positive factor `1/length`) and the zero vector for the degenerate
branch, exactly as the engine does.  Unit-length facts about the engine value
are then expressed through `Vec3.UnitScalable`: some positive real factor
rescales the representative to exact unit length.
-/

namespace WizardJam

/-- `FVector`: three float components, modelled with exact rationals. -/
structure Vec3 where
  x : ℚ
  y : ℚ
  z : ℚ
deriving DecidableEq

def Vec3.zero : Vec3 := ⟨0, 0, 0⟩

def Vec3.add (a b : Vec3) : Vec3 := ⟨a.x + b.x, a.y + b.y, a.z + b.z⟩

def Vec3.sub (a b : Vec3) : Vec3 := ⟨a.x - b.x, a.y - b.y, a.z - b.z⟩

/-- Scalar multiple `c * v` (componentwise). -/
def Vec3.smul (c : ℚ) (a : Vec3) : Vec3 := ⟨c * a.x, c * a.y, c * a.z⟩

/-- `FVector::DotProduct`. -/
def Vec3.dot (a b : Vec3) : ℚ := a.x * b.x + a.y * b.y + a.z * b.z

/-- Squared length (`FVector::SizeSquared`). -/
def Vec3.sqNorm (a : Vec3) : ℚ := Vec3.dot a a

/-- Squared distance between two points (`FVector::DistSquared`). -/
def Vec3.sqDist (a b : Vec3) : ℚ := Vec3.sqNorm (Vec3.sub a b)

/-- `FVector::UpVector` = (0,0,1). -/
def Vec3.up : Vec3 := ⟨0, 0, 1⟩

/-- Unreal's `SMALL_NUMBER` = 1e-8, the default tolerance `GetSafeNormal`
compares the *squared* length against. -/
def smallNumber : ℚ := 1 / 100000000

/-- `FVector::GetSafeNormal()` (default tolerance `SMALL_NUMBER`): the engine
returns the zero vector when the squared length is below `1e-8`, and
otherwise rescales the vector by the positive factor `1/length` to unit
length.  Rationals are not closed under that rescaling, so this model keeps
the unnormalized, direction-preserving representative in the non-degenerate
branch; the engine value is the representative multiplied by the positive
scalar `1/length` (see `Vec3.UnitScalable`).  Componentwise signs, equality
with the zero vector, and parallelism agree between the representative and
the engine value. -/
def getSafeNormal (v : Vec3) : Vec3 :=
  if Vec3.sqNorm v < smallNumber then Vec3.zero else v

/-- The engine's final normalization step: some positive real factor `r`
(namely `1/length`) rescales `v` to exact unit length.  This holds exactly
when `v` is not the zero vector, and fails for the zero vector — so a
`getSafeNormal` result is the representative of a unit-length engine value
iff it satisfies this predicate. -/
def Vec3.UnitScalable (v : Vec3) : Prop :=
  ∃ r : ℝ, 0 < r ∧
    (r * (v.x : ℝ)) ^ 2 + (r * (v.y : ℝ)) ^ 2 + (r * (v.z : ℝ)) ^ 2 = 1

theorem getSafeNormal_of_lt {v : Vec3} (h : Vec3.sqNorm v < smallNumber) :
    getSafeNormal v = Vec3.zero := by
  simp only [getSafeNormal]
  rw [if_pos h]

theorem getSafeNormal_of_le {v : Vec3} (h : smallNumber ≤ Vec3.sqNorm v) :
    getSafeNormal v = v := by
  simp only [getSafeNormal]
  rw [if_neg (not_lt.mpr h)]

theorem Vec3.sqNorm_nonneg (v : Vec3) : 0 ≤ Vec3.sqNorm v := by
  have hx := mul_self_nonneg v.x
  have hy := mul_self_nonneg v.y
  have hz := mul_self_nonneg v.z
  simp only [Vec3.sqNorm, Vec3.dot]
  linarith

theorem Vec3.sqNorm_eq_zero {v : Vec3} : Vec3.sqNorm v = 0 ↔ v = Vec3.zero := by
  constructor
  · intro h
    simp only [Vec3.sqNorm, Vec3.dot] at h
    have hx := mul_self_nonneg v.x
    have hy := mul_self_nonneg v.y
    have hz := mul_self_nonneg v.z
    have hx0 : v.x = 0 := by nlinarith
    have hy0 : v.y = 0 := by nlinarith
    have hz0 : v.z = 0 := by nlinarith
    cases v
    simp_all [Vec3.zero]
  · intro h
    subst h
    simp [Vec3.sqNorm, Vec3.dot, Vec3.zero]

theorem Vec3.cast_sum_sq (v : Vec3) :
    ((v.x : ℝ)) ^ 2 + ((v.y : ℝ)) ^ 2 + ((v.z : ℝ)) ^ 2 = ((Vec3.sqNorm v : ℚ) : ℝ) := by
  simp only [Vec3.sqNorm, Vec3.dot]
  push_cast
  ring

theorem Vec3.unitScalable_iff {v : Vec3} : Vec3.UnitScalable v ↔ 0 < Vec3.sqNorm v := by
  constructor
  · rintro ⟨r, hr, hsum⟩
    by_contra hle
    have h0 : Vec3.sqNorm v = 0 :=
      le_antisymm (not_lt.mp hle) (Vec3.sqNorm_nonneg v)
    have hz : v = Vec3.zero := Vec3.sqNorm_eq_zero.mp h0
    subst hz
    simp [Vec3.zero] at hsum
  · intro hpos
    have hs : (0 : ℝ) < ((Vec3.sqNorm v : ℚ) : ℝ) := by exact_mod_cast hpos
    have hsqrt : 0 < Real.sqrt ((Vec3.sqNorm v : ℚ) : ℝ) := Real.sqrt_pos.mpr hs
    refine ⟨(Real.sqrt ((Vec3.sqNorm v : ℚ) : ℝ))⁻¹, inv_pos.mpr hsqrt, ?_⟩
    have hsq : Real.sqrt ((Vec3.sqNorm v : ℚ) : ℝ) ^ 2 = ((Vec3.sqNorm v : ℚ) : ℝ) :=
      Real.sq_sqrt hs.le
    have hsum := Vec3.cast_sum_sq v
    field_simp
    nlinarith [hsum, hsq]

/-!
## Actors and teams

World entities as referenced by the core: a pointer identity (`aid`), the
optional `IGenericTeamAgentInterface` (`team = none` means the cast fails;
`some 255` means the interface is implemented but reports
`FGenericTeamId::NoTeam = 255`), and the actor's `Tags` array. -/

structure Actor where
  aid : Nat
  team : Option Nat
  tags : List String
deriving DecidableEq

/-- `FGenericTeamId::NoTeam` (id 255). -/
def noTeam : Nat := 255

/-!
## Projectile entity — `ABaseProjectile`
-/

/-- `ABaseProjectile::IsFriendlyActor`: the owner's team defaults to `NoTeam`
when `CachedOwner` is invalid or does not implement the team interface; a
candidate without the team interface is never friendly; if either side's
team is `NoTeam` the candidate is not friendly; otherwise friendly iff the
team ids are equal. -/
def isFriendlyActor (cachedOwner : Option Actor) (other : Actor) : Bool :=
  let ownerTeam : Nat :=
    match cachedOwner with
    | none => noTeam
    | some o => o.team.getD noTeam
  match other.team with
  | none => false
  | some otherTeam =>
      if ownerTeam = noTeam || otherTeam = noTeam then false
      else decide (ownerTeam = otherTeam)

/-- Mutable runtime state of one `ABaseProjectile`.  `selfId` is the
projectile actor's own pointer identity; `destroyed` is the engine's
pending-kill flag set by `AActor::Destroy`; `timerActive` tracks the
lifetime timer registered in `BeginPlay` and cleared in `EndPlay`;
`overlapBound` tracks the `OnComponentBeginOverlap` binding added in
`BeginPlay` and removed in `EndPlay`. -/
structure ProjState where
  selfId : Nat
  cachedOwner : Option Actor
  cachedInstigator : Option Actor
  bDidHitSomething : Bool
  destroyed : Bool
  timerActive : Bool
  overlapBound : Bool
deriving DecidableEq

/-- Observable effects of the projectile: the `TakeDamage` call, the impact
effect, the `OnProjectileHit` broadcast, and the `OnProjectileDestroyed`
broadcast from `EndPlay` (carrying `bDidHitSomething`). -/
inductive ProjOutput where
  | damageApplied (target : Actor) (amount : ℚ)
  | impactEffect
  | projectileHit (target : Actor)
  | projectileDestroyed (didHit : Bool)
deriving DecidableEq

/-- `AActor::Destroy()`: in Unreal this synchronously tears the actor down —
`ABaseProjectile::EndPlay` runs, clearing the lifetime timer, broadcasting
`OnProjectileDestroyed(this, bDidHitSomething)` once, and removing the
overlap binding.  A second `Destroy` on an already destroyed actor is a
no-op. -/
def destroyProjectile (s : ProjState) : ProjState × List ProjOutput :=
  if s.destroyed then (s, [])
  else
    ({ s with destroyed := true, timerActive := false, overlapBound := false },
     [ProjOutput.projectileDestroyed s.bDidHitSomething])

/-- `ABaseProjectile::ApplyDamage_Implementation`: no damage when the hit
actor is absent (guaranteed non-null at the call site) or `Damage <= 0`;
otherwise one `TakeDamage` call with the projectile's damage amount. -/
def applyDamage (damage : ℚ) (hitActor : Actor) : List ProjOutput :=
  if damage ≤ 0 then [] else [ProjOutput.damageApplied hitActor damage]

/-- `ABaseProjectile::HandleHit_Implementation`: apply damage, spawn the
impact effect, broadcast `OnProjectileHit`, then `Destroy()`. -/
def handleHit (damage : ℚ) (s : ProjState) (hitActor : Actor) :
    ProjState × List ProjOutput :=
  let s2 := (destroyProjectile s).1
  (s2,
   applyDamage damage hitActor ++
     [ProjOutput.impactEffect, ProjOutput.projectileHit hitActor] ++
     (destroyProjectile s).2)

/-- `ABaseProjectile::OnOverlapBegin`: skip a null candidate, the projectile
itself, the cached owner, the cached instigator, and friendly actors;
otherwise set `bDidHitSomething` and run `HandleHit`.  Pointer comparisons
(`OtherActor == this`, `== CachedOwner.Get()`, `== CachedInstigator.Get()`)
are modelled by comparing pointer identities. -/
def onOverlapBegin (damage : ℚ) (s : ProjState) (other : Option Actor) :
    ProjState × List ProjOutput :=
  match other with
  | none => (s, [])
  | some a =>
      if a.aid = s.selfId then (s, [])
      else if s.cachedOwner.any (fun o => o.aid = a.aid) ||
              s.cachedInstigator.any (fun o => o.aid = a.aid) then (s, [])
      else if isFriendlyActor s.cachedOwner a then (s, [])
      else handleHit damage { s with bDidHitSomething := true } a

/-- `ABaseProjectile::OnLifetimeExpired`: just `Destroy()`. -/
def onLifetimeExpired (s : ProjState) : ProjState × List ProjOutput :=
  destroyProjectile s

/-- One externally arriving signal: a component overlap, or the lifetime
timer elapsing.  Several events in the list may belong to the same
simulation tick; they are dispatched in arrival order either way, because
the world is single-threaded. -/
inductive ProjEvent where
  | overlap (other : Option Actor)
  | lifetimeExpired
deriving DecidableEq

/-- Engine dispatch of one event.  An overlap is delivered only while the
actor is alive and the delegate is still bound (EndPlay removes it); the
timer callback fires only while the timer is pending (EndPlay clears it). -/
def projStep (damage : ℚ) (s : ProjState) (e : ProjEvent) :
    ProjState × List ProjOutput :=
  match e with
  | ProjEvent.overlap other =>
      if s.destroyed || !s.overlapBound then (s, [])
      else onOverlapBegin damage s other
  | ProjEvent.lifetimeExpired =>
      if s.destroyed || !s.timerActive then (s, [])
      else onLifetimeExpired s

/-- Dispatch a whole arrival sequence, concatenating the observable
outputs. -/
def projRun (damage : ℚ) (s : ProjState) (es : List ProjEvent) :
    ProjState × List ProjOutput :=
  match es with
  | [] => (s, [])
  | e :: rest =>
      let step := projStep damage s e
      let tail := projRun damage step.1 rest
      (tail.1, step.2 ++ tail.2)

def ProjOutput.isDamage : ProjOutput → Bool
  | ProjOutput.damageApplied _ _ => true
  | _ => false

def ProjOutput.isHit : ProjOutput → Bool
  | ProjOutput.projectileHit _ => true
  | _ => false

def ProjOutput.isTerminal : ProjOutput → Bool
  | ProjOutput.projectileDestroyed _ => true
  | _ => false

/-- `ABaseProjectile::InitializeProjectile`, velocity part:
`Velocity = LaunchDirection.GetSafeNormal() * InitialSpeed`.  The returned
vector is the `getSafeNormal` representative of the launch direction: the
engine velocity is `InitialSpeed` times its unit rescaling (and the zero
vector when the representative is zero). -/
def initializeProjectileDirection (launchDirection : Vec3) : Vec3 :=
  getSafeNormal launchDirection

/-!
## Aim resolver — `UAC_AimComponent`
-/

/-- `EAimTraceResult`. -/
inductive EAimTraceResult where
  | Nothing
  | World
  | Friendly
  | Enemy
  | Interactable
  | Self
deriving DecidableEq

/-- `ETeamAttitude::Type`. -/
inductive ETeamAttitude where
  | Friendly
  | Neutral
  | Hostile
deriving DecidableEq

/-- `FAimTraceData` (header `AC_AimComponent.h`). -/
structure FAimTraceData where
  aimLocation : Vec3
  aimDirection : Vec3
  hitActor : Option Actor
  traceResult : EAimTraceResult
  hitDistance : ℚ
  hitNormal : Vec3
  physicalSurface : Option String
  bDidHit : Bool
  timestamp : ℚ
deriving DecidableEq

/-- Configuration surface of `UAC_AimComponent` (constructor defaults:
`MaxTraceDistance = 10000`, `MinAimDistance = 50`,
`LocationUpdateThreshold = 10`). -/
structure AimConfig where
  maxTraceDistance : ℚ
  minAimDistance : ℚ
  locationUpdateThreshold : ℚ
  interactableActorTags : List String
  friendlyActorTags : List String

/-- Camera data available through the owning player controller:
`DeprojectScreenPositionToWorld` result for the configured reticle screen
position (`none` when deprojection fails), and the
`GetPlayerViewPoint` fallback (camera location and rotation forward
vector). -/
structure CameraInfo where
  deproject : Option (Vec3 × Vec3)
  camLoc : Vec3
  camForward : Vec3

/-- The owning agent's transform: world position
(`GetActorLocation`), facing (`GetActorForwardVector`, unit length in the
engine), and the player controller's camera when the agent is
player-controlled (`GetOwnerController`). -/
structure AgentState where
  position : Vec3
  forward : Vec3
  controller : Option CameraInfo

/-- One ray-cast result delivered by `LineTraceSingleByChannel` (the world is
an oracle mapping a start/end pair to an optional hit). -/
structure TraceHit where
  impactPoint : Vec3
  hitActor : Option Actor
  distance : ℚ
  impactNormal : Vec3
  physMaterial : Option String

/-- Everything `UAC_AimComponent` reads from outside on one update: the
owner's transform and team identity, the team-attitude solver (an external
engine capability, spec section 6), the world trace oracle, and the current
simulation time. -/
structure AimEnv where
  agent : AgentState
  ownerActor : Actor
  attitude : Actor → Actor → ETeamAttitude
  world : Vec3 → Vec3 → Option TraceHit
  timestamp : ℚ

/-- `UAC_AimComponent::ActorHasAnyTag`: false for an empty tag list,
otherwise true iff the actor carries one of the tags. -/
def actorHasAnyTag (a : Actor) (tags : List String) : Bool :=
  tags.any (fun t => a.tags.contains t)

/-- `UAC_AimComponent::ClassifyHitActor`: null actor classifies as `World`;
otherwise interactable-tag membership (highest priority), then friendly-tag
membership, then the team-attitude query when both the owner and the target
implement the team interface (`Friendly` / `Hostile` map to
`Friendly` / `Enemy`, anything else falls through), and `World` in every
remaining case. -/
def classifyHitActor (cfg : AimConfig) (ownerActor : Actor)
    (attitude : Actor → Actor → ETeamAttitude) (hitActor : Option Actor) :
    EAimTraceResult :=
  match hitActor with
  | none => EAimTraceResult.World
  | some a =>
      if actorHasAnyTag a cfg.interactableActorTags then EAimTraceResult.Interactable
      else if actorHasAnyTag a cfg.friendlyActorTags then EAimTraceResult.Friendly
      else if ownerActor.team.isSome && a.team.isSome then
        match attitude ownerActor a with
        | ETeamAttitude.Friendly => EAimTraceResult.Friendly
        | ETeamAttitude.Hostile => EAimTraceResult.Enemy
        | ETeamAttitude.Neutral => EAimTraceResult.World
      else EAimTraceResult.World

/-- The trace segment of `UAC_AimComponent::PerformAimTrace`: a
player-controlled agent casts from the deprojected reticle position (falling
back to the camera viewpoint when deprojection fails); a non-player agent
casts from its own position along its facing.  The ray extends
`MaxTraceDistance`. -/
def traceSegment (cfg : AimConfig) (agent : AgentState) : Vec3 × Vec3 :=
  match agent.controller with
  | some cam =>
      match cam.deproject with
      | some wld =>
          (wld.1, Vec3.add wld.1 (Vec3.smul cfg.maxTraceDistance wld.2))
      | none =>
          (cam.camLoc, Vec3.add cam.camLoc (Vec3.smul cfg.maxTraceDistance cam.camForward))
  | none =>
      (agent.position, Vec3.add agent.position (Vec3.smul cfg.maxTraceDistance agent.forward))

/-- `UAC_AimComponent::PerformAimTrace`: cast the ray; on a hit populate the
snapshot from the hit (classifying the struck actor), on a miss set the aim
location to the ray's far end with classification `Nothing`; in both cases
the aim direction is `(AimLocation - owner position).GetSafeNormal()`
(represented unnormalized, see `getSafeNormal`). -/
def performAimTrace (cfg : AimConfig) (env : AimEnv) : FAimTraceData :=
  let seg := traceSegment cfg env.agent
  match env.world seg.1 seg.2 with
  | some hit =>
      { aimLocation := hit.impactPoint
        aimDirection := getSafeNormal (Vec3.sub hit.impactPoint env.agent.position)
        hitActor := hit.hitActor
        traceResult := classifyHitActor cfg env.ownerActor env.attitude hit.hitActor
        hitDistance := hit.distance
        hitNormal := hit.impactNormal
        physicalSurface := hit.physMaterial
        bDidHit := true
        timestamp := env.timestamp }
  | none =>
      { aimLocation := seg.2
        aimDirection := getSafeNormal (Vec3.sub seg.2 env.agent.position)
        hitActor := none
        traceResult := EAimTraceResult.Nothing
        hitDistance := cfg.maxTraceDistance
        hitNormal := Vec3.up
        physicalSurface := none
        bDidHit := false
        timestamp := env.timestamp }

/-- The test `Dot < 0.1f` of `GetAimDirectionFromLocation`, where `Dot` is
the dot product of the engine's unit direction `v/length(v)` with the
owner's facing vector (unit length in the engine): equivalently the cosine
between `v` and `fwd` is below `1/10`.  Squared to stay within rationals:
cosine negative, or `100 * (v.fwd)^2 < sqNorm v * sqNorm fwd`.  Coincides
with the engine test whenever `fwd` has unit length. -/
def normedDotBelowTenth (v fwd : Vec3) : Bool :=
  decide (Vec3.dot v fwd < 0) ||
    decide (100 * Vec3.dot v fwd * Vec3.dot v fwd < Vec3.sqNorm v * Vec3.sqNorm fwd)

/-- `UAC_AimComponent::GetAimDirectionFromLocation`: the direction from the
start location toward the cached `AimLocation` (safe-normalized); if the
owner exists and that direction is nearly zero or its dot product with the
owner's facing is below `0.1`, return the facing instead.
`FVector::IsNearlyZero` on a `GetSafeNormal` result (zero or unit length)
holds exactly for the zero vector, i.e. exactly when the representative is
`Vec3.zero`. -/
def getAimDirectionFromLocation (cached : FAimTraceData) (owner : Option AgentState)
    (startLocation : Vec3) : Vec3 :=
  let direction := getSafeNormal (Vec3.sub cached.aimLocation startLocation)
  match owner with
  | some ag =>
      if direction = Vec3.zero || normedDotBelowTenth direction ag.forward then ag.forward
      else direction
  | none => direction

/-- Notifications published by the aim resolver. -/
inductive AimEvent where
  | aimBlocked (blocked : Bool)
  | targetChanged (target : Option Actor) (result : EAimTraceResult)
  | locationUpdated (location direction : Vec3)
deriving DecidableEq

def AimEvent.isTargetChanged : AimEvent → Bool
  | AimEvent.targetChanged _ _ => true
  | _ => false

def AimEvent.isLocationUpdated : AimEvent → Bool
  | AimEvent.locationUpdated _ _ => true
  | _ => false

/-- `FVector::Dist(a, b) > threshold`, squared to stay within rationals:
`sqrt(sqDist)` exceeds `threshold` iff the threshold is negative or the
squared distance exceeds its square. -/
def distExceeds (sq threshold : ℚ) : Bool :=
  decide (threshold < 0) || decide (threshold * threshold < sq)

/-- Persistent state of `UAC_AimComponent` across updates. -/
structure AimState where
  cachedAimData : FAimTraceData
  previousAimLocation : Vec3
  previousTargetActor : Option Actor
  bAimIsBlocked : Bool
deriving DecidableEq

/-- `UAC_AimComponent::BroadcastChanges`: emit a target-changed notification
iff the new snapshot's actor differs from `PreviousTargetActor` (updating
it), then a location-updated notification iff the new aim location moved
beyond `LocationUpdateThreshold` from `PreviousAimLocation` (updating it).
Returns the two updated reference values and the notifications. -/
def broadcastChanges (cfg : AimConfig) (prevLoc : Vec3) (prevTarget : Option Actor)
    (newData : FAimTraceData) : Vec3 × Option Actor × List AimEvent :=
  let targetPart :=
    if prevTarget = newData.hitActor then (prevTarget, ([] : List AimEvent))
    else (newData.hitActor, [AimEvent.targetChanged newData.hitActor newData.traceResult])
  let locationPart :=
    if distExceeds (Vec3.sqDist prevLoc newData.aimLocation) cfg.locationUpdateThreshold then
      (newData.aimLocation, [AimEvent.locationUpdated newData.aimLocation newData.aimDirection])
    else (prevLoc, ([] : List AimEvent))
  (locationPart.1, targetPart.1, targetPart.2 ++ locationPart.2)

/-- `UAC_AimComponent::RequestAimUpdate`: perform a fresh trace, recompute
the blocked state (`bDidHit` and hit distance below `MinAimDistance`),
broadcast a blocked-state notification on change, then diff against the
previous snapshot via `BroadcastChanges`, and return the new state with the
notifications in broadcast order. -/
def requestAimUpdate (cfg : AimConfig) (env : AimEnv) (st : AimState) :
    AimState × List AimEvent :=
  let newData := performAimTrace cfg env
  let blocked := newData.bDidHit && decide (newData.hitDistance < cfg.minAimDistance)
  let blockedEvents :=
    if blocked = st.bAimIsBlocked then ([] : List AimEvent)
    else [AimEvent.aimBlocked blocked]
  let changes := broadcastChanges cfg st.previousAimLocation st.previousTargetActor newData
  ({ cachedAimData := newData
     previousAimLocation := changes.1
     previousTargetActor := changes.2.1
     bAimIsBlocked := blocked },
   blockedEvents ++ changes.2.2)

/-- A sequence of `RequestAimUpdate` calls, each against its own external
environment, concatenating the published notifications. -/
def runAimUpdates (cfg : AimConfig) (st : AimState) (envs : List AimEnv) :
    AimState × List AimEvent :=
  match envs with
  | [] => (st, [])
  | env :: rest =>
      let step := requestAimUpdate cfg env st
      let tail := runAimUpdates cfg step.1 rest
      (tail.1, step.2 ++ tail.2)

/-!
## Fire controller — `UAC_CombatComponent`
-/

/-- `EFireBlockedReason` (header `AC_CombatComponent.h`). -/
inductive EFireBlockedReason where
  | OnCooldown
  | NoProjectileClass
  | AimBlocked
  | NoAimComponent
  | SpawnFailed
  | Custom
deriving DecidableEq

/-- Events published by the fire controller during one dispatch.  `FName`
type identifiers are modelled as `Option String` (`none` = `NAME_None`);
projectile references as numeric identities. -/
inductive CombatEvent where
  | cooldownStateChanged (onCooldown : Bool) (remaining : ℚ)
  | projectileFired (projectile : Nat) (typeName : Option String) (direction : Vec3)
  | fireBlocked (reason : EFireBlockedReason) (typeName : Option String)
deriving DecidableEq

def CombatEvent.isFired : CombatEvent → Bool
  | CombatEvent.projectileFired _ _ _ => true
  | _ => false

def CombatEvent.isBlocked : CombatEvent → Bool
  | CombatEvent.fireBlocked _ _ => true
  | _ => false

/-- Configuration of `UAC_CombatComponent` (constructor defaults:
`FireCooldown = 0.5`, `bRespectAimBlocked = true`). -/
structure CombatConfig where
  fireCooldown : ℚ
  bRespectAimBlocked : Bool

/-- Mutable state of `UAC_CombatComponent` relevant to dispatch
(constructor: `LastFireTime = -1000`). -/
structure CombatState where
  lastFireTime : ℚ
  bWasOnCooldown : Bool
deriving DecidableEq

/-- What one `SpawnProjectileInternal` call reads from outside: validity of
`GetWorld()`/`GetOwner()`, the current simulation time, presence of the aim
component and its blocked flag, the trajectory-corrected direction the aim
component would return for the muzzle (`GetAimDirectionFromLocation`), the
owner's facing fallback, and the world's `SpawnActor` result (`none` =
spawn failure). -/
structure SpawnEnv where
  worldValid : Bool
  currentTime : ℚ
  hasAimComponent : Bool
  aimBlocked : Bool
  aimDirection : Vec3
  ownerForward : Vec3
  spawnResult : Option Nat

/-- `UAC_CombatComponent::SpawnProjectileInternal`, gate for gate in source
order: invalid world/owner → `SpawnFailed`; null projectile class →
`NoProjectileClass`; `CurrentTime - LastFireTime < FireCooldown` →
`OnCooldown`; respected blocked aim → `AimBlocked`; then compute the
trajectory-corrected direction (owner facing without an aim component),
spawn (failure → `SpawnFailed`), record `LastFireTime`, publish the
cooldown-state change and the success event, and return the projectile.
Every rejection publishes exactly one `OnFireBlocked` carrying the reason
and the attempted type identifier.  (The nested `RequestAimUpdate` may
additionally publish aim-resolver notifications; those are the aim
component's events, not fire events, and are modelled separately.) -/
def spawnProjectileInternal (cfg : CombatConfig) (st : CombatState) (env : SpawnEnv)
    (projectileClass : Option Nat) (typeName : Option String) :
    Option Nat × CombatState × List CombatEvent :=
  if !env.worldValid then
    (none, st, [CombatEvent.fireBlocked EFireBlockedReason.SpawnFailed typeName])
  else if projectileClass.isNone then
    (none, st, [CombatEvent.fireBlocked EFireBlockedReason.NoProjectileClass typeName])
  else if env.currentTime - st.lastFireTime < cfg.fireCooldown then
    (none, st, [CombatEvent.fireBlocked EFireBlockedReason.OnCooldown typeName])
  else if cfg.bRespectAimBlocked && env.hasAimComponent && env.aimBlocked then
    (none, st, [CombatEvent.fireBlocked EFireBlockedReason.AimBlocked typeName])
  else
    let fireDirection := if env.hasAimComponent then env.aimDirection else env.ownerForward
    match env.spawnResult with
    | none =>
        (none, st, [CombatEvent.fireBlocked EFireBlockedReason.SpawnFailed typeName])
    | some projectile =>
        (some projectile,
         { lastFireTime := env.currentTime, bWasOnCooldown := true },
         [CombatEvent.cooldownStateChanged true cfg.fireCooldown,
          CombatEvent.projectileFired projectile typeName fireDirection])

/-- `UAC_CombatComponent::FireProjectileByType`: look the type name up in
`ProjectileClassMap`; a missing entry or a null mapped class rejects with
`NoProjectileClass`; otherwise dispatch through `SpawnProjectileInternal`. -/
def fireProjectileByType (cfg : CombatConfig) (st : CombatState) (env : SpawnEnv)
    (classMap : List (String × Option Nat)) (typeName : String) :
    Option Nat × CombatState × List CombatEvent :=
  match classMap.lookup typeName with
  | none =>
      (none, st, [CombatEvent.fireBlocked EFireBlockedReason.NoProjectileClass (some typeName)])
  | some none =>
      (none, st, [CombatEvent.fireBlocked EFireBlockedReason.NoProjectileClass (some typeName)])
  | some (some c) => spawnProjectileInternal cfg st env (some c) (some typeName)

/-!
## Theorems
-/

/-- The aim direction produced by `PerformAimTrace` is, in both the hit and
the miss branch, the safe-normalized vector from the owner's position to the
resulting aim location. -/
theorem performAimTrace_aimDirection (cfg : AimConfig) (env : AimEnv) :
    (performAimTrace cfg env).aimDirection =
      getSafeNormal (Vec3.sub (performAimTrace cfg env).aimLocation env.agent.position) := by
  unfold performAimTrace
  cases h : env.world (traceSegment cfg env.agent).1 (traceSegment cfg env.agent).2 <;>
    simp [h]

/-- Claim C10, counterexample: the direction `(1/100000, 0, 0)` is non-zero,
yet its squared length `1e-10` is below `GetSafeNormal`'s tolerance `1e-8`,
so `InitializeProjectile` normalizes it to the zero vector and the resulting
velocity is zero — the launch speed is `0`, not `InitialSpeed`. -/
theorem initializeProjectile_tiny_direction_zero :
    (⟨1 / 100000, 0, 0⟩ : Vec3) ≠ Vec3.zero ∧
      initializeProjectileDirection ⟨1 / 100000, 0, 0⟩ = Vec3.zero := by
  constructor
  · intro h
    have := congrArg Vec3.x h
    norm_num [Vec3.zero] at this
  · have hlt : Vec3.sqNorm ⟨1 / 100000, 0, 0⟩ < smallNumber := by
      norm_num [Vec3.sqNorm, Vec3.dot, smallNumber]
    simp only [initializeProjectileDirection, getSafeNormal]
    rw [if_pos hlt]

/-- Claim C10 (amended): for every launch direction whose squared length
reaches `GetSafeNormal`'s tolerance `1e-8`, `InitializeProjectile` keeps the
direction (the engine velocity is exactly `InitialSpeed` times its unit
rescaling, so the launch speed is exactly `InitialSpeed` regardless of the
input magnitude — witnessed by the positive factor `r` below); for a zero or
nearly-zero (squared length below `1e-8`) input the velocity is zero. -/
theorem initializeProjectile_velocity (v : Vec3) (speed : ℚ) :
    (smallNumber ≤ Vec3.sqNorm v →
      initializeProjectileDirection v = v ∧
        ∃ r : ℝ, 0 < r ∧
          ((speed : ℝ) * (r * (v.x : ℝ))) ^ 2 + ((speed : ℝ) * (r * (v.y : ℝ))) ^ 2 +
              ((speed : ℝ) * (r * (v.z : ℝ))) ^ 2 = (speed : ℝ) ^ 2) ∧
    (Vec3.sqNorm v < smallNumber → initializeProjectileDirection v = Vec3.zero) := by
  constructor
  · intro hge
    have hnotlt : ¬ Vec3.sqNorm v < smallNumber := not_lt.mpr hge
    refine ⟨by simp [initializeProjectileDirection, getSafeNormal, hnotlt], ?_⟩
    have hpos : 0 < Vec3.sqNorm v := lt_of_lt_of_le (by norm_num [smallNumber]) hge
    obtain ⟨r, hr, hsum⟩ := Vec3.unitScalable_iff.mpr hpos
    refine ⟨r, hr, ?_⟩
    calc ((speed : ℝ) * (r * (v.x : ℝ))) ^ 2 + ((speed : ℝ) * (r * (v.y : ℝ))) ^ 2 +
          ((speed : ℝ) * (r * (v.z : ℝ))) ^ 2
        = (speed : ℝ) ^ 2 *
            ((r * (v.x : ℝ)) ^ 2 + (r * (v.y : ℝ)) ^ 2 + (r * (v.z : ℝ)) ^ 2) := by ring
      _ = (speed : ℝ) ^ 2 := by rw [hsum]; ring
  · intro hlt
    simp [initializeProjectileDirection, getSafeNormal, hlt]

/-- Witness for C10: the direction `(3, 4, 0)` (squared length 25) is kept,
and the positive rescaling factor for speed 3000 exists. -/
theorem initializeProjectile_velocity_witness :
    initializeProjectileDirection ⟨3, 4, 0⟩ = ⟨3, 4, 0⟩ :=
  ((initializeProjectile_velocity ⟨3, 4, 0⟩ 3000).1
    (by norm_num [Vec3.sqNorm, Vec3.dot, smallNumber])).1

/-- Concrete environment refuting claim C5: a hit whose impact point
coincides with the agent's own position (geometry overlapping the agent). -/
def c5CexEnv : AimEnv :=
  { agent := { position := ⟨0, 0, 0⟩, forward := ⟨1, 0, 0⟩, controller := none }
    ownerActor := { aid := 0, team := some 0, tags := [] }
    attitude := fun _ _ => ETeamAttitude.Neutral
    world := fun _ _ =>
      some { impactPoint := ⟨0, 0, 0⟩, hitActor := none, distance := 120,
             impactNormal := Vec3.up, physMaterial := none }
    timestamp := 0 }

def c5CexCfg : AimConfig :=
  { maxTraceDistance := 10000, minAimDistance := 50, locationUpdateThreshold := 10,
    interactableActorTags := [], friendlyActorTags := [] }

/-- Claim C5, counterexample: when the ray hits geometry exactly at the
agent's position, the snapshot's aim direction is the zero vector — no
positive rescaling makes it unit length, so `aimDirection` is not always
unit length. -/
theorem performAimTrace_zero_direction :
    (performAimTrace c5CexCfg c5CexEnv).aimDirection = Vec3.zero ∧
      ¬ Vec3.UnitScalable (performAimTrace c5CexCfg c5CexEnv).aimDirection := by
  have hdir : (performAimTrace c5CexCfg c5CexEnv).aimDirection = Vec3.zero := by
    norm_num [performAimTrace, traceSegment, c5CexEnv, c5CexCfg, getSafeNormal,
      Vec3.sub, Vec3.sqNorm, Vec3.dot, smallNumber, Vec3.zero]
  refine ⟨hdir, ?_⟩
  rw [hdir]
  intro h
  have hpos := Vec3.unitScalable_iff.mp h
  norm_num [Vec3.sqNorm, Vec3.dot, Vec3.zero] at hpos

/-- Claim C5 (amended): every aim snapshot's direction is unit length — a
positive real factor rescales the stored representative to exact unit
length — provided the aim location is at least the degeneracy tolerance
(squared distance `1e-8`) away from the agent's position; this covers
misses (direction toward the ray's far end).  When the aim location
coincides with the agent's position within the tolerance, the direction is
the zero vector instead. -/
theorem performAimTrace_unit_direction (cfg : AimConfig) (env : AimEnv) :
    (smallNumber ≤
        Vec3.sqNorm (Vec3.sub (performAimTrace cfg env).aimLocation env.agent.position) →
      Vec3.UnitScalable (performAimTrace cfg env).aimDirection) ∧
    (Vec3.sqNorm (Vec3.sub (performAimTrace cfg env).aimLocation env.agent.position) <
        smallNumber →
      (performAimTrace cfg env).aimDirection = Vec3.zero) := by
  constructor
  · intro hge
    have hnotlt : ¬ Vec3.sqNorm
        (Vec3.sub (performAimTrace cfg env).aimLocation env.agent.position) < smallNumber :=
      not_lt.mpr hge
    rw [performAimTrace_aimDirection]
    rw [getSafeNormal, if_neg hnotlt]
    exact Vec3.unitScalable_iff.mpr (lt_of_lt_of_le (by norm_num [smallNumber]) hge)
  · intro hlt
    rw [performAimTrace_aimDirection]
    rw [getSafeNormal, if_pos hlt]

/-- Witness for C5: in an empty world the miss snapshot's direction toward
the far end `(10000, 0, 0)` is unit-scalable. -/
theorem performAimTrace_unit_direction_witness :
    Vec3.UnitScalable
      (performAimTrace c5CexCfg
        { agent := { position := ⟨0, 0, 0⟩, forward := ⟨1, 0, 0⟩, controller := none }
          ownerActor := { aid := 0, team := some 0, tags := [] }
          attitude := fun _ _ => ETeamAttitude.Neutral
          world := fun _ _ => none
          timestamp := 0 }).aimDirection :=
  (performAimTrace_unit_direction c5CexCfg _).1
    (by norm_num [performAimTrace, traceSegment, c5CexCfg, Vec3.add, Vec3.smul,
      Vec3.sub, Vec3.sqNorm, Vec3.dot, smallNumber])

/-- Claim C8: when the ray strikes nothing (the world oracle reports no hit
for any segment), `RequestUpdate`'s trace yields `didHit = false`, no target
entity, classification `Nothing`, hit distance equal to the maximum trace
distance, and an aim location at the ray's far end; in particular, for a
non-player agent at the origin facing +X with max distance 10000, the aim
location is exactly `(10000, 0, 0)`. -/
theorem performAimTrace_miss (cfg : AimConfig) (agent : AgentState) (ownerA : Actor)
    (att : Actor → Actor → ETeamAttitude) (ts : ℚ) :
    (performAimTrace cfg
        { agent := agent, ownerActor := ownerA, attitude := att,
          world := fun _ _ => none, timestamp := ts }).bDidHit = false ∧
    (performAimTrace cfg
        { agent := agent, ownerActor := ownerA, attitude := att,
          world := fun _ _ => none, timestamp := ts }).hitActor = none ∧
    (performAimTrace cfg
        { agent := agent, ownerActor := ownerA, attitude := att,
          world := fun _ _ => none, timestamp := ts }).traceResult = EAimTraceResult.Nothing ∧
    (performAimTrace cfg
        { agent := agent, ownerActor := ownerA, attitude := att,
          world := fun _ _ => none, timestamp := ts }).aimLocation =
      (traceSegment cfg agent).2 ∧
    (performAimTrace cfg
        { agent := agent, ownerActor := ownerA, attitude := att,
          world := fun _ _ => none, timestamp := ts }).hitDistance = cfg.maxTraceDistance ∧
    (performAimTrace
        { maxTraceDistance := 10000, minAimDistance := 50, locationUpdateThreshold := 10,
          interactableActorTags := [], friendlyActorTags := [] }
        { agent := { position := ⟨0, 0, 0⟩, forward := ⟨1, 0, 0⟩, controller := none },
          ownerActor := ownerA, attitude := att,
          world := fun _ _ => none, timestamp := ts }).aimLocation = ⟨10000, 0, 0⟩ := by
  refine ⟨?_, ?_, ?_, ?_, ?_, ?_⟩ <;>
    norm_num [performAimTrace, traceSegment, Vec3.add, Vec3.smul]

/-- Claim C9: the strike classification priority — interactable tag
membership first, then friendly tag membership, then the team-attitude
query when both sides expose team identity (`Friendly` maps to `Friendly`,
`Hostile` to `Enemy`, `Neutral` falls through to `World`), and `World` in
every remaining case. -/
theorem classifyHitActor_priority (cfg : AimConfig) (ownerA : Actor)
    (att : Actor → Actor → ETeamAttitude) (a : Actor) :
    ((∃ t, t ∈ cfg.interactableActorTags ∧ t ∈ a.tags) →
      classifyHitActor cfg ownerA att (some a) = EAimTraceResult.Interactable) ∧
    ((¬ ∃ t, t ∈ cfg.interactableActorTags ∧ t ∈ a.tags) →
      (∃ t, t ∈ cfg.friendlyActorTags ∧ t ∈ a.tags) →
      classifyHitActor cfg ownerA att (some a) = EAimTraceResult.Friendly) ∧
    ((¬ ∃ t, t ∈ cfg.interactableActorTags ∧ t ∈ a.tags) →
      (¬ ∃ t, t ∈ cfg.friendlyActorTags ∧ t ∈ a.tags) →
      ownerA.team.isSome = true → a.team.isSome = true →
      ((att ownerA a = ETeamAttitude.Friendly →
          classifyHitActor cfg ownerA att (some a) = EAimTraceResult.Friendly) ∧
       (att ownerA a = ETeamAttitude.Hostile →
          classifyHitActor cfg ownerA att (some a) = EAimTraceResult.Enemy) ∧
       (att ownerA a = ETeamAttitude.Neutral →
          classifyHitActor cfg ownerA att (some a) = EAimTraceResult.World))) ∧
    ((¬ ∃ t, t ∈ cfg.interactableActorTags ∧ t ∈ a.tags) →
      (¬ ∃ t, t ∈ cfg.friendlyActorTags ∧ t ∈ a.tags) →
      ¬ (ownerA.team.isSome = true ∧ a.team.isSome = true) →
      classifyHitActor cfg ownerA att (some a) = EAimTraceResult.World) := by
  have htag : ∀ tags : List String, actorHasAnyTag a tags = true ↔ ∃ t, t ∈ tags ∧ t ∈ a.tags := by
    intro tags
    simp [actorHasAnyTag, List.any_eq_true]
  refine ⟨?_, ?_, ?_, ?_⟩
  · intro h
    simp [classifyHitActor, (htag cfg.interactableActorTags).mpr h]
  · intro h1 h2
    have h1' : actorHasAnyTag a cfg.interactableActorTags = false := by
      rw [← Bool.not_eq_true, htag]; exact h1
    simp [classifyHitActor, h1', (htag cfg.friendlyActorTags).mpr h2]
  · intro h1 h2 howner ha
    have h1' : actorHasAnyTag a cfg.interactableActorTags = false := by
      rw [← Bool.not_eq_true, htag]; exact h1
    have h2' : actorHasAnyTag a cfg.friendlyActorTags = false := by
      rw [← Bool.not_eq_true, htag]; exact h2
    refine ⟨?_, ?_, ?_⟩ <;> intro hatt <;>
      simp [classifyHitActor, h1', h2', howner, ha, hatt]
  · intro h1 h2 hteams
    have h1' : actorHasAnyTag a cfg.interactableActorTags = false := by
      rw [← Bool.not_eq_true, htag]; exact h1
    have h2' : actorHasAnyTag a cfg.friendlyActorTags = false := by
      rw [← Bool.not_eq_true, htag]; exact h2
    have hb : (ownerA.team.isSome && a.team.isSome) = false := by
      rcases Bool.eq_false_or_eq_true (ownerA.team.isSome && a.team.isSome) with h | h
      · exact absurd (by simpa using h) hteams
      · exact h
    simp [classifyHitActor, h1', h2', hb]

/-- Witness for C9: an actor tagged `Interact` classifies as interactable
when `Interact` is in the configured interactable tag set. -/
theorem classifyHitActor_priority_witness :
    classifyHitActor
        { maxTraceDistance := 10000, minAimDistance := 50, locationUpdateThreshold := 10,
          interactableActorTags := ["Interact"], friendlyActorTags := [] }
        { aid := 0, team := some 0, tags := [] }
        (fun _ _ => ETeamAttitude.Neutral)
        (some { aid := 1, team := none, tags := ["Interact"] }) =
      EAimTraceResult.Interactable :=
  (classifyHitActor_priority _ _ _ _).1 ⟨"Interact", by simp, by simp⟩

/-- Claim C3: friendly exemption.  For an overlap candidate that is not the
projectile, not the launcher and not the launcher's controlling pawn: when
both the launcher and the candidate expose a team identity and the two
identities are equal and not `NoTeam`, the overlap is fully exempt — no
damage is applied, no hit event is published, and the projectile's state
(in particular its alive/destroyed status) is untouched.  A candidate that
exposes no team identity is never friendly, and neither is one when either
side's identity is `NoTeam` (or the launcher exposes none at all). -/
theorem projectile_friendly_exemption (damage : ℚ) (s : ProjState) (a : Actor) :
    (∀ o tm, s.cachedOwner = some o → o.team = some tm → a.team = some tm → tm ≠ noTeam →
      a.aid ≠ s.selfId →
      s.cachedOwner.any (fun ow => ow.aid = a.aid) = false →
      s.cachedInstigator.any (fun ow => ow.aid = a.aid) = false →
      onOverlapBegin damage s (some a) = (s, [])) ∧
    (a.team = none → isFriendlyActor s.cachedOwner a = false) ∧
    (a.team = some noTeam → isFriendlyActor s.cachedOwner a = false) ∧
    (s.cachedOwner = none → isFriendlyActor s.cachedOwner a = false) ∧
    (∀ o, s.cachedOwner = some o → (o.team = none ∨ o.team = some noTeam) →
      isFriendlyActor s.cachedOwner a = false) := by
  refine ⟨?_, ?_, ?_, ?_, ?_⟩
  · intro o tm howner hot hat htm hself hown hinst
    have hfriendly : isFriendlyActor s.cachedOwner a = true := by
      simp [isFriendlyActor, howner, hot, hat, htm]
    simp [onOverlapBegin, hself, hown, hinst, hfriendly]
  · intro hat
    simp [isFriendlyActor, hat]
  · intro hat
    cases h : s.cachedOwner with
    | none => simp [isFriendlyActor, hat]
    | some o => simp [isFriendlyActor, hat]
  · intro howner
    cases hat : a.team with
    | none => simp [isFriendlyActor, howner, hat]
    | some t => simp [isFriendlyActor, howner, hat]
  · intro o howner hcases
    cases hat : a.team with
    | none => simp [isFriendlyActor, howner, hat]
    | some t =>
        rcases hcases with h | h <;> simp [isFriendlyActor, howner, hat, h, Option.getD]

/-- Witness for C3: a candidate on the same non-null team (3) as the
launcher passes through the projectile without any effect. -/
theorem projectile_friendly_exemption_witness :
    onOverlapBegin 15
        { selfId := 0, cachedOwner := some { aid := 1, team := some 3, tags := [] },
          cachedInstigator := none, bDidHitSomething := false, destroyed := false,
          timerActive := true, overlapBound := true }
        (some { aid := 2, team := some 3, tags := [] }) =
      ({ selfId := 0, cachedOwner := some { aid := 1, team := some 3, tags := [] },
         cachedInstigator := none, bDidHitSomething := false, destroyed := false,
         timerActive := true, overlapBound := true }, []) :=
  (projectile_friendly_exemption 15 _ _).1 { aid := 1, team := some 3, tags := [] } 3
    rfl rfl rfl (by decide) (by decide) (by decide) (by decide)

/-- Bundle of single-resolution facts about an output trace: at most one
damage application, at most one hit event, at most one terminal
(destroyed) event, and as soon as a hit event is present every terminal
event reports `didHit = true` (the termination is the hit's, never a later
expiry's). -/
def GoodOut (out : List ProjOutput) : Prop :=
  out.countP ProjOutput.isDamage ≤ 1 ∧
  out.countP ProjOutput.isHit ≤ 1 ∧
  out.countP ProjOutput.isTerminal ≤ 1 ∧
  ∀ a b, ProjOutput.projectileHit a ∈ out → ProjOutput.projectileDestroyed b ∈ out → b = true

theorem goodOut_nil : GoodOut [] := by
  refine ⟨by simp, by simp, by simp, ?_⟩
  intro a b ha
  simp at ha

/-- A destroyed (pending-kill) projectile processes no further events and
produces no further outputs. -/
theorem projRun_destroyed (damage : ℚ) (es : List ProjEvent) :
    ∀ s : ProjState, s.destroyed = true → projRun damage s es = (s, []) := by
  induction es with
  | nil => intro s _; rfl
  | cons e rest ih =>
      intro s hs
      have hstep : projStep damage s e = (s, []) := by
        cases e <;> simp [projStep, hs]
      simp [projRun, hstep, ih s hs]

/-- Each dispatched event either produces nothing, or leaves the projectile
destroyed with a single-resolution output batch. -/
theorem projStep_cases (damage : ℚ) (s : ProjState) (e : ProjEvent) :
    (projStep damage s e).2 = [] ∨
      ((projStep damage s e).1.destroyed = true ∧ GoodOut (projStep damage s e).2) := by
  cases e with
  | lifetimeExpired =>
      by_cases hg : (s.destroyed || !s.timerActive) = true
      · left; simp [projStep, hg]
      · have hs : s.destroyed = false := by
          rcases Bool.eq_false_or_eq_true s.destroyed with h | h
          · simp [h] at hg
          · exact h
        right
        have hrun : projStep damage s ProjEvent.lifetimeExpired =
            ({ s with destroyed := true, timerActive := false, overlapBound := false },
             [ProjOutput.projectileDestroyed s.bDidHitSomething]) := by
          simp only [projStep]
          rw [if_neg (by simp_all)]
          simp [onLifetimeExpired, destroyProjectile, hs]
        rw [hrun]
        refine ⟨rfl, by simp [List.countP_cons, ProjOutput.isDamage],
          by simp [List.countP_cons, ProjOutput.isHit],
          by simp [List.countP_cons, ProjOutput.isTerminal], ?_⟩
        intro a b ha
        simp at ha
  | overlap other =>
      by_cases hg : (s.destroyed || !s.overlapBound) = true
      · left; simp [projStep, hg]
      · have hs : s.destroyed = false := by
          rcases Bool.eq_false_or_eq_true s.destroyed with h | h
          · simp [h] at hg
          · exact h
        have hrun : projStep damage s (ProjEvent.overlap other) = onOverlapBegin damage s other := by
          simp only [projStep]
          rw [if_neg (by simp_all)]
        rw [hrun]
        cases other with
        | none => left; rfl
        | some a =>
            by_cases h1 : a.aid = s.selfId
            · left; simp [onOverlapBegin, h1]
            · by_cases h2 : (s.cachedOwner.any (fun ow => ow.aid = a.aid) ||
                  s.cachedInstigator.any (fun ow => ow.aid = a.aid)) = true
              · left; simp [onOverlapBegin, h1, h2]
              · by_cases h3 : isFriendlyActor s.cachedOwner a = true
                · left; simp [onOverlapBegin, h1, h2, h3]
                · right
                  have hhit : onOverlapBegin damage s (some a) =
                      handleHit damage { s with bDidHitSomething := true } a := by
                    simp only [onOverlapBegin]
                    rw [if_neg h1, if_neg (by simp_all), if_neg (by simp_all)]
                  rw [hhit]
                  constructor
                  · simp [handleHit, destroyProjectile, hs]
                  · have houts : (handleHit damage { s with bDidHitSomething := true } a).2 =
                        applyDamage damage a ++
                          [ProjOutput.impactEffect, ProjOutput.projectileHit a,
                           ProjOutput.projectileDestroyed true] := by
                      simp [handleHit, destroyProjectile, hs]
                    rw [houts]
                    by_cases hd : damage ≤ 0
                    · refine ⟨?_, ?_, ?_, ?_⟩
                      · simp [applyDamage, hd, List.countP_cons, ProjOutput.isDamage]
                      · simp [applyDamage, hd, List.countP_cons, ProjOutput.isHit]
                      · simp [applyDamage, hd, List.countP_cons, ProjOutput.isTerminal]
                      · intro x b hx hb
                        simp [applyDamage, hd] at hb
                        exact hb
                    · refine ⟨?_, ?_, ?_, ?_⟩
                      · simp [applyDamage, hd, List.countP_cons, ProjOutput.isDamage]
                      · simp [applyDamage, hd, List.countP_cons, ProjOutput.isHit]
                      · simp [applyDamage, hd, List.countP_cons, ProjOutput.isTerminal]
                      · intro x b hx hb
                        simp [applyDamage, hd] at hb
                        exact hb

/-- Claim C1: at most one resolution per projectile.  Whatever sequence of
overlap and lifetime-expiry events arrives — including a second qualifying
overlap and the expiry signal in the same tick — the projectile applies
damage at most once, publishes at most one hit event and at most one
terminal (destroyed) event, and once a qualifying overlap has resolved a
hit, the single terminal event reports the hit (`didHit = true`): a
resolved hit is never followed by an expiry termination, because `Destroy`
clears the lifetime timer and unbinds the overlap delegate. -/
theorem projectile_single_resolution (damage : ℚ) (s : ProjState) (es : List ProjEvent) :
    (projRun damage s es).2.countP ProjOutput.isDamage ≤ 1 ∧
    (projRun damage s es).2.countP ProjOutput.isHit ≤ 1 ∧
    (projRun damage s es).2.countP ProjOutput.isTerminal ≤ 1 ∧
    ∀ a b, ProjOutput.projectileHit a ∈ (projRun damage s es).2 →
      ProjOutput.projectileDestroyed b ∈ (projRun damage s es).2 → b = true := by
  suffices h : GoodOut (projRun damage s es).2 from h
  induction es generalizing s with
  | nil => exact goodOut_nil
  | cons e rest ih =>
      have hsplit : (projRun damage s (e :: rest)).2 =
          (projStep damage s e).2 ++ (projRun damage (projStep damage s e).1 rest).2 := by
        simp [projRun]
      rw [hsplit]
      rcases projStep_cases damage s e with hnil | ⟨hdes, hgood⟩
      · rw [hnil]
        simpa using ih (projStep damage s e).1
      · have hrest : (projRun damage (projStep damage s e).1 rest).2 = [] := by
          rw [projRun_destroyed damage rest _ hdes]
        rw [hrest, List.append_nil]
        exact hgood

/-- Claim C2, counterexample: after a successful fire at time 0 with
cooldown 1/2, a dispatch at time 3/10 — strictly inside the cooldown
window — whose type name is not in the projectile class map is rejected
with `NoProjectileClass`, not `OnCooldown`: the kind gate runs before the
cooldown gate, so the claim "every dispatch attempt in (T, T+C) is
rejected with OnCooldown" fails. -/
theorem fireProjectileByType_window_not_cooldown :
    fireProjectileByType { fireCooldown := 1 / 2, bRespectAimBlocked := true }
        { lastFireTime := 0, bWasOnCooldown := true }
        { worldValid := true, currentTime := 3 / 10, hasAimComponent := false,
          aimBlocked := false, aimDirection := ⟨1, 0, 0⟩, ownerForward := ⟨1, 0, 0⟩,
          spawnResult := some 7 }
        [] "Ice" =
      (none, { lastFireTime := 0, bWasOnCooldown := true },
       [CombatEvent.fireBlocked EFireBlockedReason.NoProjectileClass (some "Ice")]) ∧
    ∀ t, CombatEvent.fireBlocked EFireBlockedReason.OnCooldown t ∉
      (fireProjectileByType { fireCooldown := 1 / 2, bRespectAimBlocked := true }
        { lastFireTime := 0, bWasOnCooldown := true }
        { worldValid := true, currentTime := 3 / 10, hasAimComponent := false,
          aimBlocked := false, aimDirection := ⟨1, 0, 0⟩, ownerForward := ⟨1, 0, 0⟩,
          spawnResult := some 7 }
        [] "Ice").2.2 := by
  constructor
  · rfl
  · intro t
    simp [fireProjectileByType]

/-- Claim C2 (amended): cooldown monotonicity, with the gates that the
source checks before the cooldown made explicit.  After a successful fire
at time `T = lastFireTime` with cooldown `C`: (1) every dispatch in
`(T, T+C)` whose world context is valid and whose projectile kind resolves
is rejected with exactly one `OnCooldown` fire-blocked event and spawns
nothing (an unresolvable kind is instead reported as `NoProjectileClass`
even inside the window, as the counterexample shows); (2) a dispatch at
`t ≥ T + C` is never rejected for cooldown reasons; and (3) such a
dispatch succeeds — returns the spawned projectile — provided the kind
resolves, the world is valid, the aim-blocked gate passes and the spawn
succeeds. -/
theorem fireProjectileByType_cooldown (cfg : CombatConfig) (st : CombatState)
    (env : SpawnEnv) (classMap : List (String × Option Nat)) (typeName : String) :
    (∀ c, env.worldValid = true → classMap.lookup typeName = some (some c) →
      st.lastFireTime < env.currentTime →
      env.currentTime < st.lastFireTime + cfg.fireCooldown →
      fireProjectileByType cfg st env classMap typeName =
        (none, st, [CombatEvent.fireBlocked EFireBlockedReason.OnCooldown (some typeName)])) ∧
    (st.lastFireTime + cfg.fireCooldown ≤ env.currentTime →
      ∀ t, CombatEvent.fireBlocked EFireBlockedReason.OnCooldown t ∉
        (fireProjectileByType cfg st env classMap typeName).2.2) ∧
    (∀ c p, env.worldValid = true → classMap.lookup typeName = some (some c) →
      st.lastFireTime + cfg.fireCooldown ≤ env.currentTime →
      (cfg.bRespectAimBlocked && env.hasAimComponent && env.aimBlocked) = false →
      env.spawnResult = some p →
      (fireProjectileByType cfg st env classMap typeName).1 = some p) := by
  refine ⟨?_, ?_, ?_⟩
  · intro c hworld hlookup _hlt hwin
    have hcool : env.currentTime - st.lastFireTime < cfg.fireCooldown := by linarith
    simp [fireProjectileByType, hlookup, spawnProjectileInternal, hworld, hcool]
  · intro hge t
    have hcool : ¬ env.currentTime - st.lastFireTime < cfg.fireCooldown := by
      intro h; linarith
    cases hlookup : classMap.lookup typeName with
    | none => simp [fireProjectileByType, hlookup]
    | some copt =>
        cases copt with
        | none => simp [fireProjectileByType, hlookup]
        | some c =>
            simp only [fireProjectileByType, hlookup, spawnProjectileInternal]
            by_cases hworld : env.worldValid
            · by_cases haim : (cfg.bRespectAimBlocked && env.hasAimComponent && env.aimBlocked) = true
              · simp [hworld, hcool, haim]
              · cases hspawn : env.spawnResult with
                | none => simp [hworld, hcool, haim, hspawn]
                | some p => simp [hworld, hcool, haim, hspawn]
            · simp [Bool.eq_false_iff.mpr hworld, hworld]
  · intro c p hworld hlookup hge haim hspawn
    have hcool : ¬ env.currentTime - st.lastFireTime < cfg.fireCooldown := by
      intro h; linarith
    simp [fireProjectileByType, hlookup, spawnProjectileInternal, hworld, hcool, haim, hspawn]

/-- Witness for C2: fire at time 0 with cooldown 1/2; a dispatch at time
3/10 with a resolvable kind is rejected with `OnCooldown`, and a dispatch
at time 1/2 with a clear aim and a successful spawn returns the
projectile. -/
theorem fireProjectileByType_cooldown_witness :
    fireProjectileByType { fireCooldown := 1 / 2, bRespectAimBlocked := true }
        { lastFireTime := 0, bWasOnCooldown := true }
        { worldValid := true, currentTime := 3 / 10, hasAimComponent := false,
          aimBlocked := false, aimDirection := ⟨1, 0, 0⟩, ownerForward := ⟨1, 0, 0⟩,
          spawnResult := some 7 }
        [("Flame", some 5)] "Flame" =
      (none, { lastFireTime := 0, bWasOnCooldown := true },
       [CombatEvent.fireBlocked EFireBlockedReason.OnCooldown (some "Flame")]) ∧
    (fireProjectileByType { fireCooldown := 1 / 2, bRespectAimBlocked := true }
        { lastFireTime := 0, bWasOnCooldown := true }
        { worldValid := true, currentTime := 1 / 2, hasAimComponent := false,
          aimBlocked := false, aimDirection := ⟨1, 0, 0⟩, ownerForward := ⟨1, 0, 0⟩,
          spawnResult := some 7 }
        [("Flame", some 5)] "Flame").1 = some 7 := by
  constructor
  · exact (fireProjectileByType_cooldown _ _ _ _ _).1 5 rfl rfl (by norm_num) (by norm_num)
  · exact (fireProjectileByType_cooldown _ _ _ _ _).2.2 5 7 rfl rfl (by norm_num) rfl rfl

/-- Claim C4: every dispatch call resolves to exactly one of two outcomes.
Either a projectile reference is returned, one success event is published
and no fire-blocked event; or no projectile is returned and exactly one
fire-blocked event is published, whose reason lies in the closed set
{OnCooldown, NoProjectileClass, AimBlocked, NoAimComponent, SpawnFailed}
and which carries the attempted kind identifier.  Stated both for the
internal dispatch (`SpawnProjectileInternal`, arbitrary type identifier)
and for the by-type entry point (`FireProjectileByType`). -/
theorem dispatch_outcome_dichotomy :
    (∀ (cfg : CombatConfig) (st : CombatState) (env : SpawnEnv)
        (pc : Option Nat) (tn : Option String),
      ((∃ p, (spawnProjectileInternal cfg st env pc tn).1 = some p) ∧
        (spawnProjectileInternal cfg st env pc tn).2.2.countP CombatEvent.isFired = 1 ∧
        (spawnProjectileInternal cfg st env pc tn).2.2.countP CombatEvent.isBlocked = 0) ∨
      ((spawnProjectileInternal cfg st env pc tn).1 = none ∧
        (spawnProjectileInternal cfg st env pc tn).2.2.countP CombatEvent.isFired = 0 ∧
        (spawnProjectileInternal cfg st env pc tn).2.2.countP CombatEvent.isBlocked = 1 ∧
        ∀ reason t, CombatEvent.fireBlocked reason t ∈
            (spawnProjectileInternal cfg st env pc tn).2.2 →
          (reason = EFireBlockedReason.OnCooldown ∨
           reason = EFireBlockedReason.NoProjectileClass ∨
           reason = EFireBlockedReason.AimBlocked ∨
           reason = EFireBlockedReason.NoAimComponent ∨
           reason = EFireBlockedReason.SpawnFailed) ∧ t = tn)) ∧
    (∀ (cfg : CombatConfig) (st : CombatState) (env : SpawnEnv)
        (classMap : List (String × Option Nat)) (typeName : String),
      ((∃ p, (fireProjectileByType cfg st env classMap typeName).1 = some p) ∧
        (fireProjectileByType cfg st env classMap typeName).2.2.countP
          CombatEvent.isFired = 1 ∧
        (fireProjectileByType cfg st env classMap typeName).2.2.countP
          CombatEvent.isBlocked = 0) ∨
      ((fireProjectileByType cfg st env classMap typeName).1 = none ∧
        (fireProjectileByType cfg st env classMap typeName).2.2.countP
          CombatEvent.isFired = 0 ∧
        (fireProjectileByType cfg st env classMap typeName).2.2.countP
          CombatEvent.isBlocked = 1 ∧
        ∀ reason t, CombatEvent.fireBlocked reason t ∈
            (fireProjectileByType cfg st env classMap typeName).2.2 →
          (reason = EFireBlockedReason.OnCooldown ∨
           reason = EFireBlockedReason.NoProjectileClass ∨
           reason = EFireBlockedReason.AimBlocked ∨
           reason = EFireBlockedReason.NoAimComponent ∨
           reason = EFireBlockedReason.SpawnFailed) ∧ t = some typeName)) := by
  have hinternal : ∀ (cfg : CombatConfig) (st : CombatState) (env : SpawnEnv)
      (pc : Option Nat) (tn : Option String),
      ((∃ p, (spawnProjectileInternal cfg st env pc tn).1 = some p) ∧
        (spawnProjectileInternal cfg st env pc tn).2.2.countP CombatEvent.isFired = 1 ∧
        (spawnProjectileInternal cfg st env pc tn).2.2.countP CombatEvent.isBlocked = 0) ∨
      ((spawnProjectileInternal cfg st env pc tn).1 = none ∧
        (spawnProjectileInternal cfg st env pc tn).2.2.countP CombatEvent.isFired = 0 ∧
        (spawnProjectileInternal cfg st env pc tn).2.2.countP CombatEvent.isBlocked = 1 ∧
        ∀ reason t, CombatEvent.fireBlocked reason t ∈
            (spawnProjectileInternal cfg st env pc tn).2.2 →
          (reason = EFireBlockedReason.OnCooldown ∨
           reason = EFireBlockedReason.NoProjectileClass ∨
           reason = EFireBlockedReason.AimBlocked ∨
           reason = EFireBlockedReason.NoAimComponent ∨
           reason = EFireBlockedReason.SpawnFailed) ∧ t = tn) := by
    intro cfg st env pc tn
    simp only [spawnProjectileInternal]
    by_cases hworld : env.worldValid = true
    · by_cases hpc : pc.isNone = true
      · right
        simp [hworld, hpc, List.countP_cons, CombatEvent.isFired, CombatEvent.isBlocked]
      · by_cases hcool : env.currentTime - st.lastFireTime < cfg.fireCooldown
        · right
          simp [hworld, hpc, hcool, List.countP_cons, CombatEvent.isFired,
            CombatEvent.isBlocked]
        · by_cases haim : (cfg.bRespectAimBlocked && env.hasAimComponent && env.aimBlocked) = true
          · right
            simp [hworld, hpc, hcool, haim, List.countP_cons, CombatEvent.isFired,
              CombatEvent.isBlocked]
          · cases hspawn : env.spawnResult with
            | none =>
                right
                simp [hworld, hpc, hcool, haim, hspawn, List.countP_cons,
                  CombatEvent.isFired, CombatEvent.isBlocked]
            | some p =>
                left
                simp [hworld, hpc, hcool, haim, hspawn, List.countP_cons,
                  CombatEvent.isFired, CombatEvent.isBlocked]
    · right
      simp [Bool.eq_false_iff.mpr hworld, hworld, List.countP_cons,
        CombatEvent.isFired, CombatEvent.isBlocked]
  refine ⟨hinternal, ?_⟩
  intro cfg st env classMap typeName
  cases hlookup : classMap.lookup typeName with
  | none =>
      right
      simp [fireProjectileByType, hlookup, List.countP_cons, CombatEvent.isFired,
        CombatEvent.isBlocked]
  | some copt =>
      cases copt with
      | none =>
          right
          simp [fireProjectileByType, hlookup, List.countP_cons, CombatEvent.isFired,
            CombatEvent.isBlocked]
      | some c =>
          have h := hinternal cfg st env (some c) (some typeName)
          simpa [fireProjectileByType, hlookup] using h

/-- Witness for C4: a concrete blocked dispatch (empty class map) resolves
to the no-projectile outcome with its single `NoProjectileClass` event. -/
theorem dispatch_outcome_dichotomy_witness :
    ((∃ p, (fireProjectileByType { fireCooldown := 1 / 2, bRespectAimBlocked := true }
        { lastFireTime := 0, bWasOnCooldown := false }
        { worldValid := true, currentTime := 10, hasAimComponent := false,
          aimBlocked := false, aimDirection := ⟨1, 0, 0⟩, ownerForward := ⟨1, 0, 0⟩,
          spawnResult := some 7 } [] "Ice").1 = some p) ∧
      (fireProjectileByType { fireCooldown := 1 / 2, bRespectAimBlocked := true }
        { lastFireTime := 0, bWasOnCooldown := false }
        { worldValid := true, currentTime := 10, hasAimComponent := false,
          aimBlocked := false, aimDirection := ⟨1, 0, 0⟩, ownerForward := ⟨1, 0, 0⟩,
          spawnResult := some 7 } [] "Ice").2.2.countP CombatEvent.isFired = 1 ∧
      (fireProjectileByType { fireCooldown := 1 / 2, bRespectAimBlocked := true }
        { lastFireTime := 0, bWasOnCooldown := false }
        { worldValid := true, currentTime := 10, hasAimComponent := false,
          aimBlocked := false, aimDirection := ⟨1, 0, 0⟩, ownerForward := ⟨1, 0, 0⟩,
          spawnResult := some 7 } [] "Ice").2.2.countP CombatEvent.isBlocked = 0) ∨
    ((fireProjectileByType { fireCooldown := 1 / 2, bRespectAimBlocked := true }
        { lastFireTime := 0, bWasOnCooldown := false }
        { worldValid := true, currentTime := 10, hasAimComponent := false,
          aimBlocked := false, aimDirection := ⟨1, 0, 0⟩, ownerForward := ⟨1, 0, 0⟩,
          spawnResult := some 7 } [] "Ice").1 = none ∧
      (fireProjectileByType { fireCooldown := 1 / 2, bRespectAimBlocked := true }
        { lastFireTime := 0, bWasOnCooldown := false }
        { worldValid := true, currentTime := 10, hasAimComponent := false,
          aimBlocked := false, aimDirection := ⟨1, 0, 0⟩, ownerForward := ⟨1, 0, 0⟩,
          spawnResult := some 7 } [] "Ice").2.2.countP CombatEvent.isFired = 0 ∧
      (fireProjectileByType { fireCooldown := 1 / 2, bRespectAimBlocked := true }
        { lastFireTime := 0, bWasOnCooldown := false }
        { worldValid := true, currentTime := 10, hasAimComponent := false,
          aimBlocked := false, aimDirection := ⟨1, 0, 0⟩, ownerForward := ⟨1, 0, 0⟩,
          spawnResult := some 7 } [] "Ice").2.2.countP CombatEvent.isBlocked = 1 ∧
      ∀ reason t, CombatEvent.fireBlocked reason t ∈
          (fireProjectileByType { fireCooldown := 1 / 2, bRespectAimBlocked := true }
            { lastFireTime := 0, bWasOnCooldown := false }
            { worldValid := true, currentTime := 10, hasAimComponent := false,
              aimBlocked := false, aimDirection := ⟨1, 0, 0⟩, ownerForward := ⟨1, 0, 0⟩,
              spawnResult := some 7 } [] "Ice").2.2 →
        (reason = EFireBlockedReason.OnCooldown ∨
         reason = EFireBlockedReason.NoProjectileClass ∨
         reason = EFireBlockedReason.AimBlocked ∨
         reason = EFireBlockedReason.NoAimComponent ∨
         reason = EFireBlockedReason.SpawnFailed) ∧ t = some "Ice") :=
  dispatch_outcome_dichotomy.2 _ _ _ [] "Ice"

/-- Cached snapshot for the C6 counterexample: aim location at
`(0, 1000, 0)`. -/
def c6CexData : FAimTraceData :=
  { aimLocation := ⟨0, 1000, 0⟩, aimDirection := ⟨0, 1000, 0⟩, hitActor := none,
    traceResult := EAimTraceResult.Nothing, hitDistance := 0, hitNormal := Vec3.up,
    physicalSurface := none, bDidHit := false, timestamp := 0 }

/-- Agent for the C6 scenarios: at the origin, facing +X. -/
def c6Agent : AgentState :=
  { position := ⟨0, 0, 0⟩, forward := ⟨1, 0, 0⟩, controller := none }

/-- Claim C6, counterexample: with the cached aim location at
`(0, 1000, 0)` and the agent facing +X, the direction from the origin
toward the aim location is `(0, 1, 0)` — neither degenerate nor pointing
backward (its dot product with the facing is 0) — yet `GetDirectionFrom`
returns the facing `(1, 0, 0)` instead, because the fallback triggers for
every direction whose cosine with the facing is below 0.1, not only for
backward ones. -/
theorem getAimDirectionFromLocation_perpendicular_fallback :
    getAimDirectionFromLocation c6CexData (some c6Agent) ⟨0, 0, 0⟩ = ⟨1, 0, 0⟩ ∧
    smallNumber ≤ Vec3.sqNorm (Vec3.sub c6CexData.aimLocation ⟨0, 0, 0⟩) ∧
    0 ≤ Vec3.dot (Vec3.sub c6CexData.aimLocation ⟨0, 0, 0⟩) c6Agent.forward ∧
    Vec3.smul (1 / 1000) (Vec3.sub c6CexData.aimLocation ⟨0, 0, 0⟩) = ⟨0, 1, 0⟩ ∧
    (⟨1, 0, 0⟩ : Vec3) ≠ ⟨0, 1, 0⟩ := by
  refine ⟨?_, ?_, ?_, ?_, ?_⟩
  · norm_num [getAimDirectionFromLocation, c6CexData, c6Agent, getSafeNormal,
      normedDotBelowTenth, Vec3.sub, Vec3.sqNorm, Vec3.dot, smallNumber, Vec3.zero]
  · norm_num [c6CexData, Vec3.sub, Vec3.sqNorm, Vec3.dot, smallNumber]
  · norm_num [c6CexData, c6Agent, Vec3.sub, Vec3.dot]
  · norm_num [c6CexData, Vec3.sub, Vec3.smul]
  · intro h
    have := congrArg Vec3.x h
    norm_num at this

/-- Cached snapshot for scenario B of C6: aim location at `(1000, 0, 0)`. -/
def c6ScenData : FAimTraceData :=
  { aimLocation := ⟨1000, 0, 0⟩, aimDirection := ⟨1000, 0, 0⟩, hitActor := none,
    traceResult := EAimTraceResult.Nothing, hitDistance := 0, hitNormal := Vec3.up,
    physicalSurface := none, bDidHit := false, timestamp := 0 }

/-- Claim C6 (amended): `GetDirectionFrom(point)` returns the unit vector
from the point toward the cached aim location, except that it returns the
agent's facing direction when that vector is degenerate or its cosine with
the facing is below 0.1 — a guard that subsumes every backward direction
but also triggers on nearly-perpendicular forward ones.  Conjuncts: (1) in
the non-degenerate, sufficiently-forward case the result is exactly the
direction toward the aim location (unit-scalable, i.e. the engine value is
its unit rescaling); (2) a degenerate direction falls back to facing; (3) a
below-0.1-cosine direction falls back to facing; (4) every backward
direction has cosine below 0.1, so the claimed backward guard holds; (5)
scenario B: muzzle `(0,0,70)`, aim location `(1000,0,0)`, facing +X — the
result is the direction `(1000, 0, -70)`, which has a negative Z component
and is not a rescaling of the agent's raw facing vector. -/
theorem getAimDirectionFromLocation_spec (cached : FAimTraceData) (ag : AgentState)
    (start : Vec3) :
    (smallNumber ≤ Vec3.sqNorm (Vec3.sub cached.aimLocation start) →
      normedDotBelowTenth (Vec3.sub cached.aimLocation start) ag.forward = false →
      getAimDirectionFromLocation cached (some ag) start = Vec3.sub cached.aimLocation start ∧
        Vec3.UnitScalable (Vec3.sub cached.aimLocation start)) ∧
    (Vec3.sqNorm (Vec3.sub cached.aimLocation start) < smallNumber →
      getAimDirectionFromLocation cached (some ag) start = ag.forward) ∧
    (normedDotBelowTenth (Vec3.sub cached.aimLocation start) ag.forward = true →
      getAimDirectionFromLocation cached (some ag) start = ag.forward) ∧
    (Vec3.dot (Vec3.sub cached.aimLocation start) ag.forward < 0 →
      normedDotBelowTenth (Vec3.sub cached.aimLocation start) ag.forward = true) ∧
    (getAimDirectionFromLocation c6ScenData (some c6Agent) ⟨0, 0, 70⟩ = ⟨1000, 0, -70⟩ ∧
      (⟨1000, 0, -70⟩ : Vec3).z < 0 ∧
      ∀ q : ℚ, Vec3.smul q ⟨1000, 0, -70⟩ ≠ c6Agent.forward) := by
  have hsub : Vec3.sub c6ScenData.aimLocation ⟨0, 0, 70⟩ = ⟨1000, 0, -70⟩ := by
    norm_num [c6ScenData, Vec3.sub]
  have hsn : getSafeNormal ⟨1000, 0, -70⟩ = (⟨1000, 0, -70⟩ : Vec3) :=
    getSafeNormal_of_le (by norm_num [Vec3.sqNorm, Vec3.dot, smallNumber])
  have hnd : normedDotBelowTenth ⟨1000, 0, -70⟩ c6Agent.forward = false := by
    norm_num [normedDotBelowTenth, c6Agent, Vec3.dot, Vec3.sqNorm]
  have hnzv : (⟨1000, 0, -70⟩ : Vec3) ≠ Vec3.zero := by
    intro h
    have := congrArg Vec3.x h
    norm_num [Vec3.zero] at this
  refine ⟨?_, ?_, ?_, ?_, ?_, ?_, ?_⟩
  · intro hge hdot
    have hnz : Vec3.sub cached.aimLocation start ≠ Vec3.zero := by
      intro h0
      rw [h0] at hge
      norm_num [Vec3.sqNorm, Vec3.dot, Vec3.zero, smallNumber] at hge
    constructor
    · simp [getAimDirectionFromLocation, getSafeNormal_of_le hge, hnz, hdot]
    · exact Vec3.unitScalable_iff.mpr (lt_of_lt_of_le (by norm_num [smallNumber]) hge)
  · intro hlt
    simp [getAimDirectionFromLocation, getSafeNormal_of_lt hlt]
  · intro htest
    by_cases hlt : Vec3.sqNorm (Vec3.sub cached.aimLocation start) < smallNumber
    · simp [getAimDirectionFromLocation, getSafeNormal_of_lt hlt]
    · simp [getAimDirectionFromLocation, getSafeNormal_of_le (not_lt.mp hlt), htest]
  · intro hneg
    simp only [normedDotBelowTenth]
    rw [decide_eq_true hneg]
    simp
  · simp [getAimDirectionFromLocation, hsub, hsn, hnd, hnzv]
  · norm_num
  · intro q h
    have hz := congrArg Vec3.z h
    have hx := congrArg Vec3.x h
    norm_num [Vec3.smul, c6Agent] at hz hx
    rw [hz] at hx
    norm_num at hx

/-- Witness for C6: with the cached aim location `(1000, 0, 0)` and muzzle
`(0, 0, 70)` the forward-enough branch applies and the result is the
direction toward the aim location. -/
theorem getAimDirectionFromLocation_spec_witness :
    getAimDirectionFromLocation c6ScenData (some c6Agent) ⟨0, 0, 70⟩ =
      Vec3.sub c6ScenData.aimLocation ⟨0, 0, 70⟩ :=
  ((getAimDirectionFromLocation_spec c6ScenData c6Agent ⟨0, 0, 70⟩).1
    (by norm_num [c6ScenData, Vec3.sub, Vec3.sqNorm, Vec3.dot, smallNumber])
    (by norm_num [c6ScenData, c6Agent, normedDotBelowTenth, Vec3.sub, Vec3.sqNorm,
      Vec3.dot])).1

/-- A quiet update: when the fresh trace resolves the same target and the
aim location stays within the update threshold of the last-notified
location, `RequestAimUpdate` emits no target-changed and no
location-updated notification and leaves both reference values
unchanged. -/
theorem requestAimUpdate_quiet (cfg : AimConfig) (env : AimEnv) (st : AimState)
    (h1 : (performAimTrace cfg env).hitActor = st.previousTargetActor)
    (h2 : distExceeds (Vec3.sqDist st.previousAimLocation (performAimTrace cfg env).aimLocation)
      cfg.locationUpdateThreshold = false) :
    (requestAimUpdate cfg env st).1.previousAimLocation = st.previousAimLocation ∧
    (requestAimUpdate cfg env st).1.previousTargetActor = st.previousTargetActor ∧
    (requestAimUpdate cfg env st).2.countP AimEvent.isTargetChanged = 0 ∧
    (requestAimUpdate cfg env st).2.countP AimEvent.isLocationUpdated = 0 := by
  have hc1 : st.previousTargetActor = (performAimTrace cfg env).hitActor := h1.symm
  simp only [requestAimUpdate, broadcastChanges]
  rw [if_pos hc1, if_neg (by simp [h2])]
  refine ⟨rfl, rfl, ?_, ?_⟩
  case refine_1 =>
    split
    · simp
    · simp [List.countP_cons, AimEvent.isTargetChanged]
  case refine_2 =>
    split
    · simp
    · simp [List.countP_cons, AimEvent.isLocationUpdated]

/-- Per-call change detection of `RequestAimUpdate`: a target-changed
notification is emitted exactly when the freshly resolved target differs
from the previous one, and a location-updated notification exactly when the
new aim location moved beyond the threshold from the last-notified
location. -/
theorem requestAimUpdate_events (cfg : AimConfig) (env : AimEnv) (st : AimState) :
    (requestAimUpdate cfg env st).2.countP AimEvent.isTargetChanged =
      (if st.previousTargetActor = (performAimTrace cfg env).hitActor then 0 else 1) ∧
    (requestAimUpdate cfg env st).2.countP AimEvent.isLocationUpdated =
      (if distExceeds (Vec3.sqDist st.previousAimLocation (performAimTrace cfg env).aimLocation)
          cfg.locationUpdateThreshold = true then 1 else 0) := by
  simp only [requestAimUpdate, broadcastChanges]
  by_cases ht : st.previousTargetActor = (performAimTrace cfg env).hitActor <;>
    by_cases hl : distExceeds
        (Vec3.sqDist st.previousAimLocation (performAimTrace cfg env).aimLocation)
        cfg.locationUpdateThreshold = true <;>
      simp [ht, hl, List.countP_append, List.countP_cons,
        AimEvent.isTargetChanged, AimEvent.isLocationUpdated]

/-- Suppression over a whole call sequence: while every fresh resolution
keeps the target and stays within the threshold of the initial reference
location, no target-changed and no location-updated notification is ever
emitted. -/
theorem runAimUpdates_suppression (cfg : AimConfig) (envs : List AimEnv) :
    ∀ st : AimState,
      (∀ env ∈ envs,
        (performAimTrace cfg env).hitActor = st.previousTargetActor ∧
        distExceeds
          (Vec3.sqDist st.previousAimLocation (performAimTrace cfg env).aimLocation)
          cfg.locationUpdateThreshold = false) →
      (runAimUpdates cfg st envs).2.countP AimEvent.isTargetChanged = 0 ∧
      (runAimUpdates cfg st envs).2.countP AimEvent.isLocationUpdated = 0 := by
  induction envs with
  | nil => intro st _; simp [runAimUpdates]
  | cons env rest ih =>
      intro st H
      have hhead := H env (List.mem_cons_self env rest)
      have hq := requestAimUpdate_quiet cfg env st hhead.1 hhead.2
      have htail := ih (requestAimUpdate cfg env st).1 (by
        intro env' hmem
        have h := H env' (List.mem_cons_of_mem env hmem)
        rw [hq.1, hq.2.1]
        exact h)
      have hsplit : (runAimUpdates cfg st (env :: rest)).2 =
          (requestAimUpdate cfg env st).2 ++
            (runAimUpdates cfg (requestAimUpdate cfg env st).1 rest).2 := by
        simp [runAimUpdates]
      rw [hsplit]
      constructor
      · rw [List.countP_append, hq.2.2.1, htail.1]
      · rw [List.countP_append, hq.2.2.2, htail.2]

/-- Claim C7: change suppression and exact change detection.  (1) Over any
sequence of `RequestAimUpdate` calls in which every resolution returns the
reference target and an aim location within the configured threshold of
the reference location, zero target-changed and zero location-updated
notifications are emitted.  (2) On each single call, a target-changed
notification is emitted exactly when the resolved target differs from the
previous one, and a location-updated notification exactly when the aim
location moved beyond the threshold from the last-notified location. -/
theorem aim_change_suppression :
    (∀ (cfg : AimConfig) (envs : List AimEnv) (st : AimState),
      (∀ env ∈ envs,
        (performAimTrace cfg env).hitActor = st.previousTargetActor ∧
        distExceeds
          (Vec3.sqDist st.previousAimLocation (performAimTrace cfg env).aimLocation)
          cfg.locationUpdateThreshold = false) →
      (runAimUpdates cfg st envs).2.countP AimEvent.isTargetChanged = 0 ∧
      (runAimUpdates cfg st envs).2.countP AimEvent.isLocationUpdated = 0) ∧
    (∀ (cfg : AimConfig) (env : AimEnv) (st : AimState),
      (requestAimUpdate cfg env st).2.countP AimEvent.isTargetChanged =
        (if st.previousTargetActor = (performAimTrace cfg env).hitActor then 0 else 1) ∧
      (requestAimUpdate cfg env st).2.countP AimEvent.isLocationUpdated =
        (if distExceeds
            (Vec3.sqDist st.previousAimLocation (performAimTrace cfg env).aimLocation)
            cfg.locationUpdateThreshold = true then 1 else 0)) :=
  ⟨fun cfg envs st H => runAimUpdates_suppression cfg envs st H,
   fun cfg env st => requestAimUpdate_events cfg env st⟩

/-- Witness for C7: three consecutive updates in an unchanged empty world
(constant miss at the same far end) emit no target-changed and no
location-updated notifications. -/
theorem aim_change_suppression_witness :
    (runAimUpdates c5CexCfg
        { cachedAimData :=
            { aimLocation := ⟨10000, 0, 0⟩, aimDirection := ⟨10000, 0, 0⟩, hitActor := none,
              traceResult := EAimTraceResult.Nothing, hitDistance := 10000,
              hitNormal := Vec3.up, physicalSurface := none, bDidHit := false, timestamp := 0 }
          previousAimLocation := ⟨10000, 0, 0⟩
          previousTargetActor := none
          bAimIsBlocked := false }
        [{ agent := { position := ⟨0, 0, 0⟩, forward := ⟨1, 0, 0⟩, controller := none },
           ownerActor := { aid := 0, team := some 0, tags := [] },
           attitude := fun _ _ => ETeamAttitude.Neutral, world := fun _ _ => none,
           timestamp := 1 },
         { agent := { position := ⟨0, 0, 0⟩, forward := ⟨1, 0, 0⟩, controller := none },
           ownerActor := { aid := 0, team := some 0, tags := [] },
           attitude := fun _ _ => ETeamAttitude.Neutral, world := fun _ _ => none,
           timestamp := 2 },
         { agent := { position := ⟨0, 0, 0⟩, forward := ⟨1, 0, 0⟩, controller := none },
           ownerActor := { aid := 0, team := some 0, tags := [] },
           attitude := fun _ _ => ETeamAttitude.Neutral, world := fun _ _ => none,
           timestamp := 3 }]).2.countP AimEvent.isTargetChanged = 0 ∧
    (runAimUpdates c5CexCfg
        { cachedAimData :=
            { aimLocation := ⟨10000, 0, 0⟩, aimDirection := ⟨10000, 0, 0⟩, hitActor := none,
              traceResult := EAimTraceResult.Nothing, hitDistance := 10000,
              hitNormal := Vec3.up, physicalSurface := none, bDidHit := false, timestamp := 0 }
          previousAimLocation := ⟨10000, 0, 0⟩
          previousTargetActor := none
          bAimIsBlocked := false }
        [{ agent := { position := ⟨0, 0, 0⟩, forward := ⟨1, 0, 0⟩, controller := none },
           ownerActor := { aid := 0, team := some 0, tags := [] },
           attitude := fun _ _ => ETeamAttitude.Neutral, world := fun _ _ => none,
           timestamp := 1 },
         { agent := { position := ⟨0, 0, 0⟩, forward := ⟨1, 0, 0⟩, controller := none },
           ownerActor := { aid := 0, team := some 0, tags := [] },
           attitude := fun _ _ => ETeamAttitude.Neutral, world := fun _ _ => none,
           timestamp := 2 },
         { agent := { position := ⟨0, 0, 0⟩, forward := ⟨1, 0, 0⟩, controller := none },
           ownerActor := { aid := 0, team := some 0, tags := [] },
           attitude := fun _ _ => ETeamAttitude.Neutral, world := fun _ _ => none,
           timestamp := 3 }]).2.countP AimEvent.isLocationUpdated = 0 :=
  aim_change_suppression.1 c5CexCfg _ _ (by
    intro env hmem
    simp only [List.mem_cons, List.not_mem_nil, or_false] at hmem
    rcases hmem with rfl | rfl | rfl <;>
      exact ⟨by norm_num [performAimTrace, traceSegment, c5CexCfg],
        by norm_num [performAimTrace, traceSegment, c5CexCfg, distExceeds,
          Vec3.sqDist, Vec3.sub, Vec3.sqNorm, Vec3.dot, Vec3.add, Vec3.smul]⟩)

end WizardJam
